import Mathlib

/-!
Verification development for the Panopticon-M365 client core.

Shallow embedding of the session/token lifecycle manager and the generic
scoped-client operations:

  - Token, Session, Session.refresh, Session.secret
    (src/client/auth.rs and src/auth/mod.rs; the two copies of
    Session.refresh and Session.secret are textually identical, so one
    embedding covers both citations)
  - SessionKey (src/client/auth.rs) and AuthScope (src/auth/mod.rs)
  - SessionStore.get_secret (src/auth/mod.rs)
  - Client.authenticate, Client.find_session, Client.request
    (src/client/mod.rs)
  - list_resources, get_resource, delete_resource (src/apis/mod.rs)

Network exchanges (the oauth2 refresh-token exchange, and the HTTP send
performed by reqwest) are modelled as explicit function parameters: the
embedding passes the response the network would have produced. Time is
modelled in whole seconds, matching the as_secs truncation in the source;
the monotonic Instant pair (created, now) is passed explicitly, with
elapsed = now - created.
-/

/-- Error kinds of the auth layer. In the source these are anyhow errors;
the constructors name the distinct failure conditions the code produces
(noRefreshToken is the anyhow message produced in Session.refresh when
the held token carries no refresh token; the others stand for the
distinct failures of the oauth2 exchange calls). -/
inductive AuthError where
  | deviceFlowDenied : AuthError
  | deviceFlowExpired : AuthError
  | noRefreshToken : AuthError
  | refreshRejected : AuthError
  | networkFailure : AuthError
deriving DecidableEq, Repr

/-- Token endpoint URL, from the token_endpoint macro in src/client/auth.rs. -/
def token_endpoint (tenant_id : String) : String :=
  "https://login.microsoftonline.com/" ++ tenant_id ++ "/oauth2/v2.0/token"

/-- Authorization endpoint URL, from the authorization_endpoint macro. -/
def authorization_endpoint (tenant_id : String) : String :=
  "https://login.microsoftonline.com/" ++ tenant_id ++ "/oauth2/v2.0/authorize"

/-- Device authorization endpoint URL, from the device_authorization_endpoint macro. -/
def device_authorization_endpoint (tenant_id : String) : String :=
  "https://login.microsoftonline.com/" ++ tenant_id ++ "/oauth2/v2.0/devicecode"

/-- The configured oauth2 BasicClient: client id plus the three endpoint
URLs set in Session.from_session_key / Session.init. -/
structure ConfiguredClient where
  clientId : String
  authUrl : String
  tokenUrl : String
  deviceAuthUrl : String
deriving DecidableEq, Repr

/-- The oauth2 StandardTokenResponse fields the code reads: access_token,
refresh_token (optional), expires_in (optional, whole seconds), token_type. -/
structure Token where
  accessToken : String
  refreshToken : Option String
  expiresIn : Option Nat
  tokenType : String
deriving DecidableEq, Repr

/-- Session from src/client/auth.rs (and the identical struct in
src/auth/mod.rs): the configured oauth client, the current token, and the
instant the token was obtained (seconds on the monotonic clock). -/
structure Session where
  oauth : ConfiguredClient
  token : Token
  created : Nat
deriving DecidableEq, Repr

/-- Models oauth.exchange_refresh_token(rt).request_async(http): given the
configured client and the refresh token string, the authorization server
either returns a new token or rejects the exchange. -/
def RefreshExchange : Type :=
  ConfiguredClient → String → Except AuthError Token

/-- Session.refresh from src/client/auth.rs lines 126-139 (identical in
src/auth/mod.rs lines 153-166). State-passing embedding of the &mut self
method: the returned Session is the state after the call. -/
def Session.refresh (s : Session) (now : Nat) (exchange : RefreshExchange) :
    Except AuthError Unit × Session :=
  match s.token.refreshToken with
  | none => (Except.error AuthError.noRefreshToken, s)
  | some rt =>
    match exchange s.oauth rt with
    | Except.error e => (Except.error e, s)
    | Except.ok newToken =>
      (Except.ok (), { s with token := newToken, created := now })

/-- Session.secret from src/client/auth.rs lines 141-149 (identical in
src/auth/mod.rs lines 170-178): refresh when
expires_in < 300 or elapsed >= expires_in - 300, then return the access
token of the (possibly refreshed) current token. The u64 subtraction
expires_in - 300 is only evaluated when expires_in >= 300 thanks to the
short-circuit, so Nat truncated subtraction coincides with it. -/
def Session.secret (s : Session) (now : Nat) (exchange : RefreshExchange) :
    Except AuthError String × Session :=
  let expires_in := s.token.expiresIn.getD 0
  if expires_in < 300 ∨ now - s.created ≥ expires_in - 300 then
    match Session.refresh s now exchange with
    | (Except.error e, s2) => (Except.error e, s2)
    | (Except.ok _, s2) => (Except.ok s2.token.accessToken, s2)
  else
    (Except.ok s.token.accessToken, s)

/-- Refresh-due condition of Session.secret, exactly as written in the
source guard. -/
def refreshDue (s : Session) (now : Nat) : Prop :=
  s.token.expiresIn.getD 0 < 300 ∨ now - s.created ≥ s.token.expiresIn.getD 0 - 300

instance (s : Session) (now : Nat) : Decidable (refreshDue s now) := by
  unfold refreshDue
  infer_instance

-- Concrete inputs used by counterexamples and witnesses.

/-- A configured client for the device-code test tenant named in the
source test module. -/
def exOauth : ConfiguredClient :=
  { clientId := "ec064767-caf0-4292-88c8-44597576b102"
    authUrl := authorization_endpoint "df8dec64-bc23-40f8-bb99-02c915fd2e21"
    tokenUrl := token_endpoint "df8dec64-bc23-40f8-bb99-02c915fd2e21"
    deviceAuthUrl := device_authorization_endpoint "df8dec64-bc23-40f8-bb99-02c915fd2e21" }

/-- A token with 600 seconds of lifetime and no refresh token. -/
def exTokenNoRefresh : Token :=
  { accessToken := "old-access"
    refreshToken := none
    expiresIn := some 600
    tokenType := "Bearer" }

/-- A session holding exTokenNoRefresh, created at instant 0. -/
def exSessionNoRefresh : Session :=
  { oauth := exOauth, token := exTokenNoRefresh, created := 0 }

/-- An exchange oracle that always rejects (its value is irrelevant to the
counterexample, which fails before reaching the exchange). -/
def exRejectingExchange : RefreshExchange :=
  fun _ _ => Except.error AuthError.refreshRejected

/-- A token with 1000 seconds of lifetime and a refresh token. -/
def exTokenLive : Token :=
  { accessToken := "live"
    refreshToken := some "r"
    expiresIn := some 1000
    tokenType := "Bearer" }

/-- A session holding exTokenLive, created at instant 0. -/
def exSessionLive : Session :=
  { oauth := exOauth, token := exTokenLive, created := 0 }

instance {ε α : Type} [DecidableEq ε] [DecidableEq α] : DecidableEq (Except ε α) :=
  fun a b =>
    match a, b with
    | Except.ok x, Except.ok y =>
      if h : x = y then isTrue (by rw [h]) else
        isFalse (by intro hh; cases hh; exact h rfl)
    | Except.error x, Except.error y =>
      if h : x = y then isTrue (by rw [h]) else
        isFalse (by intro hh; cases hh; exact h rfl)
    | Except.ok _, Except.error _ => isFalse (by intro h; cases h)
    | Except.error _, Except.ok _ => isFalse (by intro h; cases h)

-- ── Identity keys: SessionKey (src/client/auth.rs) and AuthScope (src/auth/mod.rs)

/-- Uuid value semantics: the uuid crate parses a textual uuid into a
128-bit value; two textual forms naming the same value (case, hyphen
placement) compare equal. Modelled by the canonical lowercase hex string
with hyphens removed. -/
structure Uuid where
  val : String
deriving DecidableEq, Repr

/-- Hex digit test used by uuid parsing. -/
def isHexDigit (c : Char) : Bool :=
  c.isDigit || ( 'a' ≤ c && c ≤ 'f') || ( 'A' ≤ c && c ≤ 'F')

/-- Canonical uuid value of a textual form: hyphens removed, lowercased. -/
def uuidCanon (s : String) : String :=
  String.mk ((s.data.filter (fun c => c != '-')).map Char.toLower)

/-- Hyphenated uuid form: 36 characters, hyphens at positions 8, 13, 18
and 23, hex digits elsewhere. -/
def validHyphenated (cs : List Char) : Bool :=
  cs.length == 36 &&
    (List.range 36).all (fun i =>
      if i == 8 || i == 13 || i == 18 || i == 23 then cs.getD i ' ' == '-'
      else isHexDigit (cs.getD i ' '))

/-- Simple uuid form: 32 hex digits. -/
def validSimple (cs : List Char) : Bool :=
  cs.length == 32 && cs.all isHexDigit

/-- Uuid.parse_str: accepts the hyphenated and simple textual forms and
yields the canonical value. -/
def Uuid.parse_str (s : String) : Option Uuid :=
  if validHyphenated s.data || validSimple s.data then some ⟨uuidCanon s⟩ else none

/-- Ordered set insertion: the BTreeSet insert on the model of a
BTreeSet of strings as a strictly ascending list. -/
def btreeInsert (x : String) : List String → List String
  | [] => [x]
  | y :: ys =>
    if x < y then x :: y :: ys
    else if x = y then y :: ys
    else y :: btreeInsert x ys

/-- BTreeSet from_iter over an input list: insert each element in input
order, producing the ascending duplicate-free list of its elements. -/
def btreeCollect (l : List String) : List String :=
  l.foldl (fun acc s => btreeInsert s acc) []

/-- SessionKey from src/client/auth.rs lines 164-185: tenant, client, and
the scope strings held as a BTreeSet (modelled by its ascending list). -/
structure SessionKey where
  tenant_id : Uuid
  client_id : Uuid
  scopes : List String
deriving DecidableEq, Repr

/-- SessionKey.new: collects the given scope strings into the BTreeSet. -/
def SessionKey.new (tenant_id client_id : Uuid) (scopes : List String) : SessionKey :=
  { tenant_id := tenant_id, client_id := client_id, scopes := btreeCollect scopes }

/-- AuthScope from src/auth/mod.rs lines 62-67: a plain struct with the
scope strings held as a Vec in caller-supplied order; equality and hashing
are derived structurally over the ordered list. -/
structure AuthScope where
  client_id : String
  tenant_id : String
  scopes : List String
deriving DecidableEq, Repr

/-- HashMap lookup modelled on an association list in iteration order:
the value of the first pair whose key equals the requested key. -/
def mapFind {κ ν : Type} [DecidableEq κ] : List (κ × ν) → κ → Option ν
  | [], _ => none
  | (k2, v) :: rest, k => if k2 = k then some v else mapFind rest k

/-- HashMap insert modelled on an association list: replace the value of
the first pair carrying the key, or append the binding when absent. -/
def mapInsert {κ ν : Type} [DecidableEq κ] : List (κ × ν) → κ → ν → List (κ × ν)
  | [], k, v => [(k, v)]
  | (k2, v2) :: rest, k, v =>
    if k2 = k then (k, v) :: rest else (k2, v2) :: mapInsert rest k v

/-- A SessionStore content holding one session under the scope list
written in one particular order. -/
def exAuthStore : List (AuthScope × Session) :=
  [({ client_id := "c", tenant_id := "t", scopes := ["scopeA", "scopeB"] },
    exSessionLive)]

-- ── Generic API operations (src/apis/mod.rs) ──

/-- HTTP methods used by the generic operations. -/
inductive Method where
  | GET : Method
  | PUT : Method
  | POST : Method
  | DELETE : Method
deriving DecidableEq, Repr

/-- An HTTP response: status code and body text. -/
structure HttpResponse where
  status : Nat
  body : String
deriving DecidableEq, Repr

/-- Error kinds of the request layer. transportFailure stands for a
reqwest send error, decodeFailure for the serde error raised by the json
call on a body that does not match the expected shape, authFailure for an
error surfaced by Client.request. unsuccessfulStatus carries a status
code with the response body; in the source it is produced only by
check_response_success in src/azure/common.rs, never by the generic
operations of src/apis/mod.rs. -/
inductive RequestError where
  | transportFailure : RequestError
  | decodeFailure : RequestError
  | authFailure (e : AuthError) : RequestError
  | unsuccessfulStatus (code : Nat) (body : String) : RequestError
deriving DecidableEq, Repr

/-- ListResponse from src/types/azure/common.rs: the page wrapper with
the item array and the optional continuation link (nextLink or
odata.nextLink alias). -/
structure ListResponse (Raw : Type) where
  value : List Raw
  next_link : Option String
deriving DecidableEq, Repr

/-- Models the composition scope.client().request(tenant, method, url)
followed by send(): builds the bearer-authenticated request and performs
the HTTP round trip, returning the response the network produced, or an
auth or transport failure. -/
def Fetch : Type := Method → String → Except RequestError HttpResponse

/-- The ApiScope trait contract from src/apis/mod.rs: the tenant id and
the url method building a full URL from a resource-relative suffix. The
client() accessor is represented by the Fetch argument each generic
operation takes. -/
structure ApiScope where
  tenant_id : String
  url : String → String

/-- The pagination loop of list_resources: while the deserialized page
carries a continuation link, GET that link unmodified and accumulate the
converted items. Fuel bounds the number of page requests; none is
returned when the link chain outruns the fuel (the source loop simply
keeps going). The second component records every request issued, in
order. -/
def list_resources_loop {Raw Domain : Type} (fetch : Fetch)
    (decodePage : String → Option (ListResponse Raw)) (conv : Raw → Domain) :
    Nat → Option String → List Domain → List (Method × String) →
      Option (Except RequestError (List Domain)) × List (Method × String)
  | _, none, acc, log => (some (Except.ok acc), log)
  | 0, some _, _, log => (none, log)
  | Nat.succ fuel, some u, acc, log =>
    match fetch Method.GET u with
    | Except.error e => (some (Except.error e), log ++ [(Method.GET, u)])
    | Except.ok resp =>
      match decodePage resp.body with
      | none => (some (Except.error RequestError.decodeFailure), log ++ [(Method.GET, u)])
      | some page =>
        list_resources_loop fetch decodePage conv fuel page.next_link
          (acc ++ page.value.map conv) (log ++ [(Method.GET, u)])

/-- list_resources from src/apis/mod.rs lines 42-76: GET the built URL,
then follow continuation links, converting each raw item via the Domain
conversion. -/
def list_resources {Raw Domain : Type} (scope : ApiScope) (fetch : Fetch)
    (decodePage : String → Option (ListResponse Raw)) (conv : Raw → Domain)
    (fuel : Nat) (suffix : String) :
    Option (Except RequestError (List Domain)) × List (Method × String) :=
  list_resources_loop fetch decodePage conv fuel (some (scope.url suffix)) [] []

/-- get_resource from src/apis/mod.rs lines 79-96: one GET of the built
URL, then the json decode of the body (the response status is never
inspected), then the Domain conversion. -/
def get_resource {Raw Domain : Type} (scope : ApiScope) (fetch : Fetch)
    (decode : String → Option Raw) (conv : Raw → Domain) (suffix : String) :
    Except RequestError Domain :=
  match fetch Method.GET (scope.url suffix) with
  | Except.error e => Except.error e
  | Except.ok resp =>
    match decode resp.body with
    | none => Except.error RequestError.decodeFailure
    | some raw => Except.ok (conv raw)

/-- delete_resource from src/apis/mod.rs lines 145-157: one DELETE of the
built URL; the response body is dropped without any deserialization and
the status is never inspected. -/
def delete_resource (scope : ApiScope) (fetch : Fetch) (suffix : String) :
    Except RequestError Unit :=
  match fetch Method.DELETE (scope.url suffix) with
  | Except.error e => Except.error e
  | Except.ok _ => Except.ok ()

/-- check_response_success from src/azure/common.rs: the status test the
repository uses where it does check statuses (2xx is success), producing
the status-carrying error kind. -/
def check_response_success (resp : HttpResponse) : Except RequestError HttpResponse :=
  if 200 ≤ resp.status ∧ resp.status < 300 then Except.ok resp
  else Except.error (RequestError.unsuccessfulStatus resp.status resp.body)

/-- A finite continuation chain of pages: fetching from the given URL
yields the first page, and each page with a continuation link leads to
the next, the last page carrying no link. -/
inductive FetchChain {Raw : Type} (fetch : Fetch)
    (decodePage : String → Option (ListResponse Raw)) :
    String → List (ListResponse Raw) → Prop where
  | last (u : String) (r : HttpResponse) (p : ListResponse Raw) :
      fetch Method.GET u = Except.ok r → decodePage r.body = some p →
      p.next_link = none → FetchChain fetch decodePage u [p]
  | cons (u : String) (r : HttpResponse) (p : ListResponse Raw) (u2 : String)
      (ps : List (ListResponse Raw)) :
      fetch Method.GET u = Except.ok r → decodePage r.body = some p →
      p.next_link = some u2 → FetchChain fetch decodePage u2 ps →
      FetchChain fetch decodePage u (p :: ps)

/-- Concatenation of the converted items of a page chain, page order
first, item order within a page preserved. -/
def chainItems {Raw Domain : Type} (conv : Raw → Domain) :
    List (ListResponse Raw) → List Domain
  | [] => []
  | p :: ps => p.value.map conv ++ chainItems conv ps

/-- The continuation links present in a page chain, in page order. -/
def chainLinks {Raw : Type} : List (ListResponse Raw) → List String
  | [] => []
  | p :: ps =>
    (match p.next_link with
     | none => []
     | some u => [u]) ++ chainLinks ps

-- Concrete three-page scenario for claims about the generic operations.

/-- A scope whose url method prefixes the suffix with a fixed base. -/
def exScope : ApiScope :=
  { tenant_id := "df8dec64-bc23-40f8-bb99-02c915fd2e21"
    url := fun suffix => "https://base/" ++ suffix }

/-- First page: two items and a continuation link. -/
def exPage1 : ListResponse Nat := { value := [1, 2], next_link := some "https://next/2" }

/-- Second page: two items and a continuation link. -/
def exPage2 : ListResponse Nat := { value := [3, 4], next_link := some "https://next/3" }

/-- Third page: one item, no continuation link. -/
def exPage3 : ListResponse Nat := { value := [5], next_link := none }

/-- A network serving the three-page listing. -/
def exListFetch : Fetch := fun m u =>
  if m == Method.GET && u == "https://base/items" then Except.ok { status := 200, body := "page1" }
  else if m == Method.GET && u == "https://next/2" then Except.ok { status := 200, body := "page2" }
  else if m == Method.GET && u == "https://next/3" then Except.ok { status := 200, body := "page3" }
  else Except.error RequestError.transportFailure

/-- Page decoding for the three bodies served by exListFetch. -/
def exDecodePage : String → Option (ListResponse Nat) := fun b =>
  if b == "page1" then some exPage1
  else if b == "page2" then some exPage2
  else if b == "page3" then some exPage3
  else none

/-- A network answering 404 with a plain-text body to every request. -/
def exNotFoundFetch : Fetch :=
  fun _ _ => Except.ok { status := 404, body := "The resource was not found" }

/-- A network answering 500 to every request. -/
def exServerErrorFetch : Fetch :=
  fun _ _ => Except.ok { status := 500, body := "internal error" }

/-- A network answering 200 with a body named b to every request. -/
def exOkFetch : Fetch := fun _ _ => Except.ok { status := 200, body := "b" }

/-- A decoder rejecting every body. -/
def exFailDecode : String → Option Nat := fun _ => none

/-- A decoder accepting every body as the value 7. -/
def exOkDecode : String → Option Nat := fun _ => some 7

-- ── SessionStore (src/auth/mod.rs) ──

/-- SessionStore from src/auth/mod.rs: the map of sessions keyed by
AuthScope, held as an association list in iteration order. -/
structure SessionStore where
  sessions : List (AuthScope × Session)
deriving DecidableEq, Repr

/-- Models Session.init(scope, http, services): the whole device-code
flow for the scope, producing an established session or the auth error
the flow ended in. -/
def EstablishFlow : Type := AuthScope → Except AuthError Session

/-- SessionStore.get_secret from src/auth/mod.rs lines 89-104: look the
scope up; on a miss run the device-code flow, giving up with none (the
ok()? call) and no insertion when it fails, else insert; then take the
secret of the in-map session, giving up with none (the ok() call) when it
fails. The session mutated by the secret call stays in the map in both
the hit and the freshly inserted case. -/
def SessionStore.get_secret (store : SessionStore) (scope : AuthScope)
    (establish : EstablishFlow) (now : Nat) (exchange : RefreshExchange) :
    Option String × SessionStore :=
  match mapFind store.sessions scope with
  | some s =>
    match Session.secret s now exchange with
    | (Except.error _, s2) => (none, ⟨mapInsert store.sessions scope s2⟩)
    | (Except.ok str, s2) => (some str, ⟨mapInsert store.sessions scope s2⟩)
  | none =>
    match establish scope with
    | Except.error _ => (none, store)
    | Except.ok newSession =>
      let inserted := mapInsert store.sessions scope newSession
      match Session.secret newSession now exchange with
      | (Except.error _, s2) => (none, ⟨mapInsert inserted scope s2⟩)
      | (Except.ok str, s2) => (some str, ⟨mapInsert inserted scope s2⟩)

/-- The empty session store. -/
def exEmptyStore : SessionStore := { sessions := [] }

/-- An identity key for the store examples. -/
def exScopeA : AuthScope :=
  { client_id := "c", tenant_id := "t", scopes := ["s1"] }

/-- A store holding, under exScopeA, a session whose refresh is due at
now = 300 and which carries no refresh token. -/
def exStaleStore : SessionStore := { sessions := [(exScopeA, exSessionNoRefresh)] }

/-- A store holding, under exScopeA, a session that carries a refresh
token; its refresh is due at now = 700 (remaining 300 of 1000). -/
def exLiveStore : SessionStore := { sessions := [(exScopeA, exSessionLive)] }

-- ── Client (src/client/mod.rs) ──

/-- Error kinds of the client layer: a tenant or client id that does not
parse as a uuid, the no-session-found error of find_session, or an auth
error raised while producing the bearer token. -/
inductive ClientError where
  | invalidUuid : ClientError
  | noSessionFound (tenant_id : String) : ClientError
  | auth (e : AuthError) : ClientError
deriving DecidableEq, Repr

/-- The client session map: HashMap from SessionKey to the session, held
as an association list in iteration order. The RwLock and per-session
Mutex wrappers are treated in the lock model further down. -/
structure Client where
  sessions : List (SessionKey × Session)
deriving DecidableEq, Repr

/-- A reqwest RequestBuilder as Session.request leaves it: the method and
URL with the bearer token applied. -/
structure RequestBuilder where
  method : Method
  url : String
  bearer : String
deriving DecidableEq, Repr

/-- Session.request from src/client/auth.rs lines 152-161: take the
secret (refreshing if needed) and return the builder carrying the bearer
token. -/
def Session.request (s : Session) (method : Method) (url : String) (now : Nat)
    (exchange : RefreshExchange) : Except AuthError RequestBuilder × Session :=
  match Session.secret s now exchange with
  | (Except.error e, s2) => (Except.error e, s2)
  | (Except.ok tok, s2) =>
    (Except.ok { method := method, url := url, bearer := tok }, s2)

/-- Client.find_session from src/client/mod.rs lines 74-84: parse the
tenant id and return the first stored entry whose key has that tenant id;
the client id and the scope set of the stored keys are not consulted. -/
def Client.find_session (sessions : List (SessionKey × Session)) (tenant_id : String) :
    Except ClientError (SessionKey × Session) :=
  match Uuid.parse_str tenant_id with
  | none => Except.error ClientError.invalidUuid
  | some tenant_uuid =>
    match sessions.find? (fun kv => decide (kv.fst.tenant_id = tenant_uuid)) with
    | none => Except.error (ClientError.noSessionFound tenant_id)
    | some kv => Except.ok kv

/-- Client.request from src/client/mod.rs lines 86-98: find the session
for the tenant, then delegate to Session.request on it; the selected
session is updated in place, and no code path creates a session. -/
def Client.request (c : Client) (tenant_id : String) (method : Method) (url : String)
    (now : Nat) (exchange : RefreshExchange) :
    Except ClientError RequestBuilder × Client :=
  match Client.find_session c.sessions tenant_id with
  | Except.error e => (Except.error e, c)
  | Except.ok (key, s) =>
    match Session.request s method url now exchange with
    | (Except.error e, s2) =>
      (Except.error (ClientError.auth e), { sessions := mapInsert c.sessions key s2 })
    | (Except.ok rb, s2) =>
      (Except.ok rb, { sessions := mapInsert c.sessions key s2 })

/-- Models Session.from_session_key: the device-code flow for a session
key. -/
def EstablishKeyFlow : Type := SessionKey → Except AuthError Session

/-- Client.authenticate from src/client/mod.rs lines 53-72: parse both
ids, build the SessionKey, and, unless the key is already present, run
the device-code flow and insert the result. -/
def Client.authenticate (c : Client) (tenant_id client_id : String)
    (scopes : List String) (establish : EstablishKeyFlow) :
    Except ClientError Unit × Client :=
  match Uuid.parse_str tenant_id with
  | none => (Except.error ClientError.invalidUuid, c)
  | some t =>
    match Uuid.parse_str client_id with
    | none => (Except.error ClientError.invalidUuid, c)
    | some cid =>
      let key := SessionKey.new t cid scopes
      match mapFind c.sessions key with
      | some _ => (Except.ok (), c)
      | none =>
        match establish key with
        | Except.error e => (Except.error (ClientError.auth e), c)
        | Except.ok s => (Except.ok (), { sessions := c.sessions ++ [(key, s)] })

/-- The canonical uuid value of the test tenant id named in the source
test module. -/
def exTenantUuid : Uuid := { val := "df8dec64bc2340f8bb9902c915fd2e21" }

/-- A stored key for the test tenant with one scope set. -/
def exKey1 : SessionKey :=
  { tenant_id := exTenantUuid, client_id := { val := "c1" }, scopes := ["scope-one"] }

/-- A stored key for the same tenant with another client id and scope set. -/
def exKey2 : SessionKey :=
  { tenant_id := exTenantUuid, client_id := { val := "c2" }, scopes := ["scope-two"] }

-- ── Lock model of the client concurrency (src/client/mod.rs) ──
--
-- Client.sessions is a tokio RwLock around the session map. authenticate
-- takes the write guard and holds it across the whole body, including the
-- Session.from_session_key device-code network round trip, before the
-- contains_key check and the insert; request takes the read guard only
-- around find_session. The model runs two threads over that skeleton as
-- interleaved atomic steps. The map is restricted to the one identity the
-- authenticate threads contend on (present or absent), and the number of
-- establish invocations is tracked as zero, one, or more than one. The
-- device-code flow is taken to succeed.

/-- The RwLock states reachable with two threads: free, write-held, or
read-held by one or two readers. -/
inductive CLock where
  | free : CLock
  | writer : CLock
  | r1 : CLock
  | r2 : CLock
deriving DecidableEq, Repr, Fintype

/-- Establish-invocation count, saturated at two: zero, exactly one, or
more than one. -/
inductive Estc where
  | zero : Estc
  | one : Estc
  | many : Estc
deriving DecidableEq, Repr, Fintype

/-- Count one more establish invocation. -/
def Estc.bump : Estc → Estc
  | Estc.zero => Estc.one
  | Estc.one => Estc.many
  | Estc.many => Estc.many

/-- The two thread programs: authenticate (for the contended identity) or
request (for some other identity). -/
inductive TKind where
  | auth : TKind
  | req : TKind
deriving DecidableEq, Repr, Fintype

/-- Shared state of the two-thread system: the RwLock, whether the
contended identity has an entry, the establish count, and both program
counters. -/
structure CSys where
  lock : CLock
  hasK : Bool
  est : Estc
  pc1 : Fin 6
  pc2 : Fin 6
deriving DecidableEq, Repr, Fintype

/-- One atomic step of a thread, or none when it is blocked or finished.
The authenticate program is: acquire the write lock (0); contains_key
check (1), skipping establishment when the key is present; the device
code network round trip (2); insert (3); release (4); done (5). The
request program is: acquire the read lock (0), blocked while a writer
holds the lock; find_session under the read guard (1); release (2);
done (3). -/
def threadStep (kind : TKind) (pc : Fin 6) (lock : CLock) (hasK : Bool) (est : Estc) :
    Option (Fin 6 × CLock × Bool × Estc) :=
  match kind with
  | TKind.auth =>
    match pc.val with
    | 0 =>
      match lock with
      | CLock.free => some (1, CLock.writer, hasK, est)
      | _ => none
    | 1 => if hasK then some (4, lock, hasK, est) else some (2, lock, hasK, est)
    | 2 => some (3, lock, hasK, est.bump)
    | 3 => some (4, lock, true, est)
    | 4 =>
      match lock with
      | CLock.writer => some (5, CLock.free, hasK, est)
      | _ => none
    | _ => none
  | TKind.req =>
    match pc.val with
    | 0 =>
      match lock with
      | CLock.free => some (1, CLock.r1, hasK, est)
      | CLock.r1 => some (1, CLock.r2, hasK, est)
      | _ => none
    | 1 => some (2, lock, hasK, est)
    | 2 =>
      match lock with
      | CLock.r1 => some (3, CLock.free, hasK, est)
      | CLock.r2 => some (3, CLock.r1, hasK, est)
      | _ => none
    | _ => none

/-- Scheduler step: run one atomic step of the chosen thread; a blocked
or finished thread leaves the state unchanged (it waits). -/
def sysStep (k1 k2 : TKind) (s : CSys) (first : Bool) : CSys :=
  if first then
    match threadStep k1 s.pc1 s.lock s.hasK s.est with
    | none => s
    | some (pc, l, hk, e) => { s with pc1 := pc, lock := l, hasK := hk, est := e }
  else
    match threadStep k2 s.pc2 s.lock s.hasK s.est with
    | none => s
    | some (pc, l, hk, e) => { s with pc2 := pc, lock := l, hasK := hk, est := e }

/-- Run a schedule: each entry picks the thread to step next. -/
def sysRun (k1 k2 : TKind) (s : CSys) : List Bool → CSys
  | [] => s
  | b :: bs => sysRun k1 k2 (sysStep k1 k2 s b) bs

/-- Both threads at their start, lock free, no entry, nothing
established. -/
def cInit : CSys :=
  { lock := CLock.free, hasK := false, est := Estc.zero, pc1 := 0, pc2 := 0 }

/-- Whether an authenticate thread at this counter holds the write lock. -/
def inWrite (pc : Fin 6) : Bool := decide (1 ≤ pc.val) && decide (pc.val ≤ 4)

/-- Inductive invariant of two authenticate threads racing on one
identity: the write lock is held by exactly the thread inside the
critical section; at most one establishment ever runs; a thread between
its check and its insert sees no entry, and the entry exists exactly
after the one establishment was inserted. -/
def raceInv (s : CSys) : Bool :=
  (match s.lock with
   | CLock.free => !(inWrite s.pc1) && !(inWrite s.pc2)
   | CLock.writer => (inWrite s.pc1) != (inWrite s.pc2)
   | _ => false) &&
  !(s.est == Estc.many) &&
  (if s.pc1.val == 2 then !s.hasK && s.est == Estc.zero else true) &&
  (if s.pc2.val == 2 then !s.hasK && s.est == Estc.zero else true) &&
  (if s.pc1.val == 3 then !s.hasK && s.est == Estc.one else true) &&
  (if s.pc2.val == 3 then !s.hasK && s.est == Estc.one else true) &&
  (if 4 ≤ s.pc1.val then s.hasK else true) &&
  (if 4 ≤ s.pc2.val then s.hasK else true) &&
  (if s.hasK then s.est == Estc.one else true) &&
  (if s.est == Estc.one then s.hasK || s.pc1.val == 3 || s.pc2.val == 3 else true)

/-- Claim C2, counterexample: at now = 300 the remaining lifetime of
exSessionNoRefresh is 600 - 300 = 300 >= 300, so the claim predicts no
refresh exchange and a successful return of the unchanged stored token;
the code instead enters the refresh branch (elapsed = 300 >=
expires_in - 300 = 300) and fails with the no-refresh-token error, leaving
a result different from the claimed one. -/
theorem secret_refreshes_at_exactly_300 :
    Session.secret exSessionNoRefresh 300 exRejectingExchange
      = (Except.error AuthError.noRefreshToken, exSessionNoRefresh) ∧
    exTokenNoRefresh.expiresIn.getD 0 - (300 - exSessionNoRefresh.created) ≥ 300 ∧
    Session.secret exSessionNoRefresh 300 exRejectingExchange
      ≠ (Except.ok exTokenNoRefresh.accessToken, exSessionNoRefresh) := by
  refine ⟨?_, by decide, ?_⟩ <;> decide

/-- Claim C2 (amended): with expiry information present, no refresh occurs
exactly when the remaining lifetime is strictly greater than 300 seconds,
in which case the stored token and issuance instant are returned unchanged;
the refresh exchange is performed exactly when the remaining lifetime is at
most 300 seconds or no expiry information is available (expires_in treated
as 0), observable through the refresh outcomes. -/
theorem secret_fresh_token_unchanged (s : Session) (now : Nat) (ex : RefreshExchange) :
    (¬ refreshDue s now → Session.secret s now ex = (Except.ok s.token.accessToken, s)) ∧
    (refreshDue s now → s.token.refreshToken = none →
      Session.secret s now ex = (Except.error AuthError.noRefreshToken, s)) ∧
    (refreshDue s now → ∀ rt t, s.token.refreshToken = some rt →
      ex s.oauth rt = Except.ok t →
      Session.secret s now ex =
        (Except.ok t.accessToken, { s with token := t, created := now })) := by
  refine ⟨?_, ?_, ?_⟩
  · intro h
    simp only [Session.secret]
    split
    · exact absurd (by assumption) h
    · rfl
  · intro h hnone
    simp only [Session.secret, Session.refresh, hnone]
    split
    · rfl
    · exact absurd h (by assumption)
  · intro h rt t hrt hex
    simp only [Session.secret, Session.refresh, hrt, hex]
    split
    · rfl
    · exact absurd h (by assumption)

/-- Witness for secret_fresh_token_unchanged: a session created at 0 with
1000 seconds of lifetime, read at now = 100 (remaining 900 > 300), returns
its stored access token and is unchanged. -/
theorem secret_fresh_token_unchanged_witness :
    Session.secret exSessionLive 100 exRejectingExchange
      = (Except.ok exTokenLive.accessToken, exSessionLive) :=
  (secret_fresh_token_unchanged exSessionLive 100 exRejectingExchange).1 (by decide)

/-- Claim C3: Session.refresh is atomic on the holder state: with no
refresh token it fails with the no-refresh-token error and the prior token
and issuance instant are untouched; when the exchange is rejected the
prior state is likewise untouched; on success the token and the issuance
instant are replaced together. -/
theorem refresh_atomic (s : Session) (now : Nat) (ex : RefreshExchange) :
    (s.token.refreshToken = none →
      Session.refresh s now ex = (Except.error AuthError.noRefreshToken, s)) ∧
    (∀ rt, s.token.refreshToken = some rt →
      (∀ e, ex s.oauth rt = Except.error e →
        Session.refresh s now ex = (Except.error e, s)) ∧
      (∀ t, ex s.oauth rt = Except.ok t →
        Session.refresh s now ex =
          (Except.ok (), { oauth := s.oauth, token := t, created := now }))) := by
  refine ⟨?_, ?_⟩
  · intro hnone
    simp only [Session.refresh, hnone]
  · intro rt hrt
    refine ⟨?_, ?_⟩
    · intro e he
      simp only [Session.refresh, hrt, he]
    · intro t ht
      simp only [Session.refresh, hrt, ht]

/-- Witness for refresh_atomic: the holder with no refresh token fails
with the no-refresh-token error and its state is returned untouched. -/
theorem refresh_atomic_witness :
    Session.refresh exSessionNoRefresh 42 exRejectingExchange
      = (Except.error AuthError.noRefreshToken, exSessionNoRefresh) :=
  (refresh_atomic exSessionNoRefresh 42 exRejectingExchange).1 (by decide)

-- ── Claim C4: identity-key scope ordering ──

theorem mem_btreeInsert (x y : String) (l : List String) :
    y ∈ btreeInsert x l ↔ y = x ∨ y ∈ l := by
  induction l with
  | nil => simp [btreeInsert]
  | cons z zs ih =>
    simp only [btreeInsert]
    split
    · simp [List.mem_cons]
    · split
      · rename_i hlt heq
        subst heq
        simp only [List.mem_cons]
        tauto
      · simp only [List.mem_cons, ih]
        tauto

theorem sorted_btreeInsert (x : String) (l : List String)
    (h : l.Sorted (· < ·)) : (btreeInsert x l).Sorted (· < ·) := by
  induction l with
  | nil => simp [btreeInsert]
  | cons z zs ih =>
    rw [List.sorted_cons] at h
    obtain ⟨hz, hzs⟩ := h
    simp only [btreeInsert]
    split
    · rename_i hlt
      rw [List.sorted_cons]
      constructor
      · intro b hb
        rcases List.mem_cons.mp hb with hb | hb
        · exact hb ▸ hlt
        · exact lt_trans hlt (hz b hb)
      · rw [List.sorted_cons]
        exact ⟨hz, hzs⟩
    · split
      · rw [List.sorted_cons]
        exact ⟨hz, hzs⟩
      · rename_i hnlt hne
        rw [List.sorted_cons]
        constructor
        · intro b hb
          rcases (mem_btreeInsert x b zs).mp hb with hb | hb
          · subst hb
            rcases lt_trichotomy b z with h | h | h
            · exact absurd h hnlt
            · exact absurd h hne
            · exact h
          · exact hz b hb
        · exact ih hzs

theorem sorted_foldl_btreeInsert (l : List String) (acc : List String)
    (h : acc.Sorted (· < ·)) :
    (l.foldl (fun a s => btreeInsert s a) acc).Sorted (· < ·) := by
  induction l generalizing acc with
  | nil => exact h
  | cons x xs ih => exact ih (btreeInsert x acc) (sorted_btreeInsert x acc h)

theorem mem_foldl_btreeInsert (l : List String) (acc : List String) (y : String) :
    y ∈ l.foldl (fun a s => btreeInsert s a) acc ↔ y ∈ acc ∨ y ∈ l := by
  induction l generalizing acc with
  | nil => simp
  | cons x xs ih =>
    simp only [List.foldl_cons, ih, mem_btreeInsert, List.mem_cons]
    tauto

theorem sorted_btreeCollect (l : List String) : (btreeCollect l).Sorted (· < ·) :=
  sorted_foldl_btreeInsert l [] (by simp)

theorem mem_btreeCollect (l : List String) (y : String) :
    y ∈ btreeCollect l ↔ y ∈ l := by
  unfold btreeCollect
  rw [mem_foldl_btreeInsert]
  simp

theorem btreeCollect_eq_of_mem_iff (l₁ l₂ : List String)
    (h : ∀ s, s ∈ l₁ ↔ s ∈ l₂) : btreeCollect l₁ = btreeCollect l₂ := by
  haveI : IsAntisymm String (· < ·) :=
    ⟨fun a b hab hba => absurd hba (lt_asymm hab)⟩
  have s₁ := sorted_btreeCollect l₁
  have s₂ := sorted_btreeCollect l₂
  refine List.eq_of_perm_of_sorted ?_ s₁ s₂
  refine (List.perm_ext_iff_of_nodup s₁.nodup s₂.nodup).mpr ?_
  intro a
  rw [mem_btreeCollect, mem_btreeCollect]
  exact h a

/-- Claim C4 (amended): keys built by SessionKey.new from the same tenant
and client and scope lists with the same scope strings are equal, hence
resolve to the same cache entry of any session map; the AuthScope key of
the SessionStore, by contrast, compares its scope list by position, so
the same scopes in a different order give a distinct key and a distinct
cache entry (see the counterexample). -/
theorem sessionKey_new_scope_order_independent (t c : Uuid) (l₁ l₂ : List String)
    (h : ∀ s, s ∈ l₁ ↔ s ∈ l₂) :
    SessionKey.new t c l₁ = SessionKey.new t c l₂ ∧
    ∀ (store : List (SessionKey × Session)),
      mapFind store (SessionKey.new t c l₁) = mapFind store (SessionKey.new t c l₂) := by
  have hk : SessionKey.new t c l₁ = SessionKey.new t c l₂ := by
    unfold SessionKey.new
    rw [btreeCollect_eq_of_mem_iff l₁ l₂ h]
  exact ⟨hk, fun store => by rw [hk]⟩

/-- Witness for sessionKey_new_scope_order_independent at the scope lists
of the graph_default helper taken in both orders. -/
theorem sessionKey_new_scope_order_independent_witness :
    SessionKey.new ⟨"t"⟩ ⟨"c"⟩ ["offline_access", "https://graph.microsoft.com/.default"]
      = SessionKey.new ⟨"t"⟩ ⟨"c"⟩ ["https://graph.microsoft.com/.default", "offline_access"] :=
  (sessionKey_new_scope_order_independent ⟨"t"⟩ ⟨"c"⟩ _ _ (by intro s; constructor <;>
    (intro hs; simp only [List.mem_cons, List.mem_singleton] at hs ⊢; tauto))).1

/-- Claim C4, counterexample: the AuthScope identity key of the
SessionStore is order-sensitive: the same tenant, client and scope strings
in two input orders give unequal keys, and a store holding a session under
the first order resolves nothing for the second order. -/
theorem authScope_scope_order_sensitive :
    ({ client_id := "c", tenant_id := "t", scopes := ["scopeA", "scopeB"] } : AuthScope)
      ≠ ({ client_id := "c", tenant_id := "t", scopes := ["scopeB", "scopeA"] } : AuthScope) ∧
    mapFind exAuthStore { client_id := "c", tenant_id := "t", scopes := ["scopeA", "scopeB"] }
      = some exSessionLive ∧
    mapFind exAuthStore { client_id := "c", tenant_id := "t", scopes := ["scopeB", "scopeA"] }
      = none := by
  refine ⟨by decide, by decide, by decide⟩

-- ── Claim C1: pagination of list_resources ──

theorem list_loop_chain {Raw Domain : Type} (fetch : Fetch)
    (decodePage : String → Option (ListResponse Raw)) (conv : Raw → Domain)
    (u : String) (ps : List (ListResponse Raw))
    (hchain : FetchChain fetch decodePage u ps) :
    ∀ (fuel : Nat), ps.length ≤ fuel →
      ∀ (acc : List Domain) (log : List (Method × String)),
        list_resources_loop fetch decodePage conv fuel (some u) acc log =
          (some (Except.ok (acc ++ chainItems conv ps)),
           log ++ (u :: chainLinks ps).map (fun v => (Method.GET, v))) := by
  induction hchain with
  | last u r p hf hd hn =>
    intro fuel hfuel acc log
    cases fuel with
    | zero => simp at hfuel
    | succ n =>
      simp [list_resources_loop, hf, hd, hn, chainItems, chainLinks]
  | cons u r p u2 ps hf hd hn hrec ih =>
    intro fuel hfuel acc log
    cases fuel with
    | zero => simp at hfuel
    | succ n =>
      have hlen : ps.length ≤ n := by
        simpa using hfuel
      simp only [list_resources_loop, hf, hd, hn]
      rw [ih n hlen]
      simp [chainItems, chainLinks, hn]

/-- Claim C1: list_resources issues one GET to the URL built by the url
method from the relative suffix, then, while the deserialized page
carries a continuation link, one GET to that link string unmodified; it
returns the concatenation of every converted page in page order, and the
requests issued are exactly the first URL followed by the continuation
links, all GETs. -/
theorem list_resources_follows_continuations {Raw Domain : Type} (scope : ApiScope)
    (fetch : Fetch) (decodePage : String → Option (ListResponse Raw))
    (conv : Raw → Domain) (suffix : String) (ps : List (ListResponse Raw)) (fuel : Nat)
    (hchain : FetchChain fetch decodePage (scope.url suffix) ps)
    (hfuel : ps.length ≤ fuel) :
    list_resources scope fetch decodePage conv fuel suffix =
      (some (Except.ok (chainItems conv ps)),
       (scope.url suffix :: chainLinks ps).map (fun v => (Method.GET, v))) := by
  unfold list_resources
  rw [list_loop_chain fetch decodePage conv _ ps hchain fuel hfuel [] []]
  simp

/-- Witness for list_resources_follows_continuations: the three-page
response of 2, 2 and 1 items yields exactly the 5 items in page order and
exactly 3 GETs: the built URL, then the two continuation links verbatim. -/
theorem list_resources_follows_continuations_witness :
    list_resources exScope exListFetch exDecodePage (fun n : Nat => n) 3 "items" =
      (some (Except.ok [1, 2, 3, 4, 5]),
       [(Method.GET, "https://base/items"),
        (Method.GET, "https://next/2"),
        (Method.GET, "https://next/3")]) := by
  have hchain : FetchChain exListFetch exDecodePage (exScope.url "items")
      [exPage1, exPage2, exPage3] := by
    refine FetchChain.cons _ { status := 200, body := "page1" } _ "https://next/2" _
      (by decide) (by decide) (by decide) ?_
    refine FetchChain.cons _ { status := 200, body := "page2" } _ "https://next/3" _
      (by decide) (by decide) (by decide) ?_
    exact FetchChain.last _ { status := 200, body := "page3" } _
      (by decide) (by decide) (by decide)
  have h := list_resources_follows_continuations exScope exListFetch exDecodePage
    (fun n : Nat => n) "items" [exPage1, exPage2, exPage3] 3 hchain (by decide)
  exact h.trans (by decide)

-- ── Claim C5: status handling of get_resource ──

/-- Claim C5, counterexample: a Get whose response is HTTP 404 with a
body that does not match the expected shape returns the plain decode
failure, not an error carrying the status code 404 and the literal body;
and with a body that happens to match the expected shape it even
succeeds, despite the 404. -/
theorem get_resource_404_counterexample :
    get_resource exScope exNotFoundFetch exFailDecode (fun n : Nat => n) "incidents"
      = Except.error RequestError.decodeFailure ∧
    get_resource exScope exNotFoundFetch exFailDecode (fun n : Nat => n) "incidents"
      ≠ Except.error (RequestError.unsuccessfulStatus 404 "The resource was not found") ∧
    get_resource exScope exNotFoundFetch exOkDecode (fun n : Nat => n) "incidents"
      = Except.ok 7 :=
  ⟨by decide, by decide, by decide⟩

/-- Claim C5 (amended): get_resource never inspects the HTTP status and
produces no status-carrying error: whatever the status, it attempts the
json deserialization of the body; a body that does not decode yields the
decode-failure error (which carries neither the status code nor the
body), and a body that decodes yields success, even on a non-success
status such as 404. -/
theorem get_resource_ignores_status {Raw Domain : Type} (scope : ApiScope)
    (fetch : Fetch) (decode : String → Option Raw) (conv : Raw → Domain)
    (suffix : String) (resp : HttpResponse)
    (hresp : fetch Method.GET (scope.url suffix) = Except.ok resp) :
    (decode resp.body = none →
      get_resource scope fetch decode conv suffix
        = Except.error RequestError.decodeFailure) ∧
    (∀ raw, decode resp.body = some raw →
      get_resource scope fetch decode conv suffix = Except.ok (conv raw)) ∧
    (∀ code body, (RequestError.decodeFailure : RequestError)
        ≠ RequestError.unsuccessfulStatus code body) := by
  refine ⟨?_, ?_, ?_⟩
  · intro hdec
    simp only [get_resource, hresp, hdec]
  · intro raw hdec
    simp only [get_resource, hresp, hdec]
  · intro code body h
    cases h

/-- Witness for get_resource_ignores_status: the 404 response with a
non-decoding body gives the decode failure. -/
theorem get_resource_ignores_status_witness :
    get_resource exScope exNotFoundFetch exFailDecode (fun n : Nat => n + 1) "x"
      = Except.error RequestError.decodeFailure :=
  (get_resource_ignores_status exScope exNotFoundFetch exFailDecode
    (fun n : Nat => n + 1) "x" { status := 404, body := "The resource was not found" }
    (by decide)).1 (by decide)

-- ── Claim C6: delete_resource ──

/-- Claim C6, counterexample: a Delete whose response has the non-success
status 500 still returns success; the repository status test
check_response_success classifies that very response as unsuccessful. -/
theorem delete_resource_500_counterexample :
    delete_resource exScope exServerErrorFetch "incidents/1" = Except.ok () ∧
    check_response_success { status := 500, body := "internal error" }
      = Except.error (RequestError.unsuccessfulStatus 500 "internal error") :=
  ⟨by decide, by decide⟩

/-- Claim C6 (amended): delete_resource returns success if and only if
the transport send succeeds, regardless of the HTTP status; it discards
the response body and performs no deserialization (it takes no decoder at
all), and it propagates a transport failure unchanged. -/
theorem delete_resource_status_blind (scope : ApiScope) (fetch : Fetch) (suffix : String) :
    (∀ resp, fetch Method.DELETE (scope.url suffix) = Except.ok resp →
      delete_resource scope fetch suffix = Except.ok ()) ∧
    (∀ e, fetch Method.DELETE (scope.url suffix) = Except.error e →
      delete_resource scope fetch suffix = Except.error e) := by
  refine ⟨?_, ?_⟩
  · intro resp hresp
    simp only [delete_resource, hresp]
  · intro e he
    simp only [delete_resource, he]

/-- Witness for delete_resource_status_blind: a 200 response gives
success with no payload. -/
theorem delete_resource_status_blind_witness :
    delete_resource exScope exOkFetch "incidents/1" = Except.ok () :=
  (delete_resource_status_blind exScope exOkFetch "incidents/1").1
    { status := 200, body := "b" } (by decide)

-- ── Map helper lemmas ──

theorem mapInsert_self {κ ν : Type} [DecidableEq κ] (m : List (κ × ν)) (k : κ) (v : ν)
    (h : mapFind m k = some v) : mapInsert m k v = m := by
  induction m with
  | nil => simp [mapFind] at h
  | cons kv rest ih =>
    obtain ⟨k2, v2⟩ := kv
    by_cases hk : k2 = k
    · subst hk
      simp [mapFind] at h
      simp [mapInsert, h]
    · simp [mapFind, hk] at h
      simp [mapInsert, hk, ih h]

theorem mapInsert_keys {κ ν : Type} [DecidableEq κ] (m : List (κ × ν)) (k : κ) (v : ν)
    (h : k ∈ m.map Prod.fst) : (mapInsert m k v).map Prod.fst = m.map Prod.fst := by
  induction m with
  | nil => simp at h
  | cons kv rest ih =>
    obtain ⟨k2, v2⟩ := kv
    by_cases hk : k2 = k
    · subst hk
      simp [mapInsert]
    · have h2 : k ∈ rest.map Prod.fst := by
        simp only [List.map_cons, List.mem_cons] at h
        rcases h with h | h
        · exact absurd h.symm hk
        · exact h
      simp [mapInsert, hk, ih h2]

theorem mapFind_append_first {κ ν : Type} [DecidableEq κ] (m : List (κ × ν)) (k : κ)
    (v : ν) (rest : List (κ × ν)) (h : ∀ kv ∈ m, kv.fst ≠ k) :
    mapFind (m ++ (k, v) :: rest) k = some v := by
  induction m with
  | nil => simp [mapFind]
  | cons kv m2 ih =>
    obtain ⟨k2, v2⟩ := kv
    have hne : k2 ≠ k := h (k2, v2) (by simp)
    simp only [List.cons_append, mapFind, if_neg hne]
    exact ih (fun kv2 hm => h kv2 (by simp [hm]))

theorem find?_append_first {α : Type} (p : α → Bool) (front : List α) (x : α)
    (rest : List α) (hfront : ∀ y ∈ front, ¬ p y) (hx : p x) :
    (front ++ x :: rest).find? p = some x := by
  induction front with
  | nil => simpa using List.find?_cons_of_pos rest hx
  | cons y fr ih =>
    rw [List.cons_append, List.find?_cons_of_neg _ (hfront y (by simp))]
    exact ih (fun z hz => hfront z (by simp [hz]))

-- ── Claim C7: SessionStore.get_secret failure behaviour ──

/-- Claim C7, counterexample: a failed establishment does not surface the
underlying AuthError: get_secret returns none, and two runs differing
only in the underlying error value (device flow denied versus network
failure) produce identical results, so the caller cannot recover the
error. No entry is inserted. -/
theorem get_secret_discards_establish_error :
    SessionStore.get_secret exEmptyStore exScopeA
        (fun _ => Except.error AuthError.deviceFlowDenied) 0 exRejectingExchange
      = (none, exEmptyStore) ∧
    SessionStore.get_secret exEmptyStore exScopeA
        (fun _ => Except.error AuthError.networkFailure) 0 exRejectingExchange
      = SessionStore.get_secret exEmptyStore exScopeA
        (fun _ => Except.error AuthError.deviceFlowDenied) 0 exRejectingExchange :=
  ⟨by decide, by decide⟩

theorem secret_error_state (s : Session) (now : Nat) (ex : RefreshExchange)
    (e2 : AuthError) (s2 : Session)
    (h : Session.secret s now ex = (Except.error e2, s2)) : s2 = s := by
  simp only [Session.secret] at h
  split at h
  · simp only [Session.refresh] at h
    cases hrt : s.token.refreshToken with
    | none =>
      simp only [hrt, Prod.mk.injEq] at h
      exact h.2.symm
    | some rt =>
      simp only [hrt] at h
      cases hex : ex s.oauth rt with
      | error e3 =>
        simp only [hex, Prod.mk.injEq] at h
        exact h.2.symm
      | ok t =>
        simp only [hex] at h
        simp at h
  · simp at h

/-- Claim C7 (amended): when establishment fails, get_secret returns none
(the AuthError itself is discarded by the ok() conversion) and inserts no
entry, leaving the store unchanged; when the secret of an existing entry
fails — a due refresh with no refresh token as much as a refresh exchange
the token endpoint rejects — it returns none and the stale holder remains
in the map unchanged. -/
theorem get_secret_failure_behavior (store : SessionStore) (scope : AuthScope)
    (e : AuthError) (now : Nat) (ex : RefreshExchange) :
    (mapFind store.sessions scope = none →
      SessionStore.get_secret store scope (fun _ => Except.error e) now ex
        = (none, store)) ∧
    (∀ s e2, mapFind store.sessions scope = some s →
      (Session.secret s now ex).fst = Except.error e2 →
      SessionStore.get_secret store scope (fun _ => Except.error e) now ex
        = (none, store)) := by
  refine ⟨?_, ?_⟩
  · intro h
    simp only [SessionStore.get_secret, h]
  · intro s e2 hs herr
    rcases hsec : Session.secret s now ex with ⟨res, s2⟩
    have hres : res = Except.error e2 := by
      rw [hsec] at herr
      simpa using herr
    subst hres
    have hs2 : s2 = s := secret_error_state s now ex e2 s2 hsec
    subst hs2
    simp only [SessionStore.get_secret, hs, hsec]
    rw [mapInsert_self store.sessions scope s2 hs]

/-- Witness for get_secret_failure_behavior: the holder whose refresh
exchange the token endpoint rejects stays in the map unchanged and the
caller gets none, with the RefreshRejected error discarded. -/
theorem get_secret_failure_behavior_witness :
    SessionStore.get_secret exLiveStore exScopeA
        (fun _ => Except.error AuthError.deviceFlowDenied) 700 exRejectingExchange
      = (none, exLiveStore) :=
  (get_secret_failure_behavior exLiveStore exScopeA AuthError.deviceFlowDenied 700
    exRejectingExchange).2 exSessionLive AuthError.refreshRejected (by decide) (by decide)

-- ── Claim C9: session selection by tenant only ──

/-- Claim C9: Client.find_session selects by tenant id alone: the first
entry in map iteration order whose key has the requested tenant id is
returned, whatever its client id and scope set, even when a later entry
for the same tenant carries different scopes; Client.request then
authorizes with that first entry's token. -/
theorem find_session_tenant_only (front : List (SessionKey × Session))
    (k1 k2 : SessionKey) (s1 s2 : Session) (rest : List (SessionKey × Session))
    (tenant_id : String) (u : Uuid) (method : Method) (url : String) (now : Nat)
    (ex : RefreshExchange)
    (hparse : Uuid.parse_str tenant_id = some u)
    (hfront : ∀ kv ∈ front, kv.fst.tenant_id ≠ u)
    (h1 : k1.tenant_id = u) (h2 : k2.tenant_id = u) :
    Client.find_session (front ++ (k1, s1) :: (k2, s2) :: rest) tenant_id
      = Except.ok (k1, s1) ∧
    (¬ refreshDue s1 now →
      Client.request { sessions := front ++ (k1, s1) :: (k2, s2) :: rest } tenant_id
          method url now ex
        = (Except.ok { method := method, url := url, bearer := s1.token.accessToken },
           { sessions := front ++ (k1, s1) :: (k2, s2) :: rest })) := by
  have hfind : (front ++ (k1, s1) :: (k2, s2) :: rest).find?
      (fun kv => decide (kv.fst.tenant_id = u)) = some (k1, s1) := by
    refine find?_append_first _ front (k1, s1) ((k2, s2) :: rest) ?_ (by simpa using h1)
    intro y hy
    simpa using hfront y hy
  have hfs : Client.find_session (front ++ (k1, s1) :: (k2, s2) :: rest) tenant_id
      = Except.ok (k1, s1) := by
    unfold Client.find_session
    rw [hparse]
    simp only [hfind]
  refine ⟨hfs, ?_⟩
  intro hfresh
  have hsec : Session.secret s1 now ex = (Except.ok s1.token.accessToken, s1) := by
    simp only [Session.secret]
    split
    · exact absurd (by assumption) hfresh
    · rfl
  have hmf : mapFind (front ++ (k1, s1) :: (k2, s2) :: rest) k1 = some s1 := by
    refine mapFind_append_first front k1 s1 ((k2, s2) :: rest) ?_
    intro kv hkv heq
    exact hfront kv hkv (by rw [heq, h1])
  simp only [Client.request, hfs, Session.request, hsec]
  rw [mapInsert_self _ k1 s1 hmf]

/-- Witness for find_session_tenant_only: with two sessions for the same
tenant under different client ids and scope sets, the request is
authorized with the token of the entry the iteration yields first. -/
theorem find_session_tenant_only_witness :
    Client.request { sessions := [(exKey1, exSessionLive), (exKey2, exSessionNoRefresh)] }
        "df8dec64-bc23-40f8-bb99-02c915fd2e21" Method.GET "https://m/u" 0
        exRejectingExchange
      = (Except.ok { method := Method.GET, url := "https://m/u",
                     bearer := exSessionLive.token.accessToken },
         { sessions := [(exKey1, exSessionLive), (exKey2, exSessionNoRefresh)] }) := by
  have h := find_session_tenant_only [] exKey1 exKey2 exSessionLive exSessionNoRefresh []
    "df8dec64-bc23-40f8-bb99-02c915fd2e21" exTenantUuid Method.GET "https://m/u" 0
    exRejectingExchange (by decide) (by simp) (by decide) (by decide)
  simpa using h.2 (by decide)

-- ── Claim C10: Client.request creates no session ──

theorem find_session_mem (sessions : List (SessionKey × Session)) (t : String)
    (kv : SessionKey × Session) (h : Client.find_session sessions t = Except.ok kv) :
    kv ∈ sessions := by
  unfold Client.find_session at h
  cases hp : Uuid.parse_str t with
  | none =>
    rw [hp] at h
    simp at h
  | some u =>
    rw [hp] at h
    cases hf : sessions.find? (fun kv2 => decide (kv2.fst.tenant_id = u)) with
    | none =>
      simp only [hf] at h
      exact absurd h (by simp)
    | some kv2 =>
      simp only [hf, Except.ok.injEq] at h
      subst h
      exact List.mem_of_find?_eq_some hf

/-- Claim C10: for a tenant with no stored session, Client.request
returns the no-session-found error and leaves the map unchanged; and on
every input whatsoever, Client.request preserves the key set of the map
(it updates the found session in place but never creates one), so a
session for an identity exists only after Client.authenticate inserted
it. -/
theorem request_without_session (c : Client) (tenant_id : String) (u : Uuid)
    (method : Method) (url : String) (now : Nat) (ex : RefreshExchange)
    (hparse : Uuid.parse_str tenant_id = some u)
    (hnone : ∀ kv ∈ c.sessions, kv.fst.tenant_id ≠ u) :
    Client.request c tenant_id method url now ex
      = (Except.error (ClientError.noSessionFound tenant_id), c) ∧
    ∀ (t2 : String) (m2 : Method) (u2 : String) (n2 : Nat) (e2 : RefreshExchange),
      ((Client.request c t2 m2 u2 n2 e2).snd).sessions.map Prod.fst
        = c.sessions.map Prod.fst := by
  constructor
  · have hfind : c.sessions.find? (fun kv => decide (kv.fst.tenant_id = u)) = none := by
      rw [List.find?_eq_none]
      intro x hx
      simpa using hnone x hx
    unfold Client.request Client.find_session
    rw [hparse]
    simp only [hfind]
  · intro t2 m2 u2 n2 e2
    unfold Client.request
    cases hfs : Client.find_session c.sessions t2 with
    | error e => simp only [hfs]
    | ok kv =>
      obtain ⟨key, s⟩ := kv
      have hkey : key ∈ c.sessions.map Prod.fst := by
        exact List.mem_map.mpr ⟨(key, s), find_session_mem c.sessions t2 (key, s) hfs, rfl⟩
      simp only [hfs]
      rcases hreq : Session.request s m2 u2 n2 e2 with ⟨res, s2⟩
      cases res with
      | error e3 =>
        simp only [hreq]
        exact mapInsert_keys c.sessions key s2 hkey
      | ok rb =>
        simp only [hreq]
        exact mapInsert_keys c.sessions key s2 hkey

/-- Witness for request_without_session: an empty client map gives the
no-session-found error and the map stays empty. -/
theorem request_without_session_witness :
    Client.request { sessions := [] } "df8dec64-bc23-40f8-bb99-02c915fd2e21"
        Method.GET "https://m/u" 0 exRejectingExchange
      = (Except.error (ClientError.noSessionFound "df8dec64-bc23-40f8-bb99-02c915fd2e21"),
         { sessions := [] }) :=
  (request_without_session { sessions := [] } "df8dec64-bc23-40f8-bb99-02c915fd2e21"
    exTenantUuid Method.GET "https://m/u" 0 exRejectingExchange (by decide) (by simp)).1

-- ── Claim C8: serialization and blocking of the session cache ──

set_option maxRecDepth 10000 in
theorem raceInv_step_components :
    ∀ (b : Bool) (l : CLock) (hk : Bool) (e : Estc) (p1 p2 : Fin 6),
      raceInv { lock := l, hasK := hk, est := e, pc1 := p1, pc2 := p2 } = true →
      raceInv (sysStep TKind.auth TKind.auth
        { lock := l, hasK := hk, est := e, pc1 := p1, pc2 := p2 } b) = true := by
  decide

theorem raceInv_step (s : CSys) (b : Bool) (h : raceInv s = true) :
    raceInv (sysStep TKind.auth TKind.auth s b) = true := by
  obtain ⟨l, hk, e, p1, p2⟩ := s
  exact raceInv_step_components b l hk e p1 p2 h

theorem raceInv_run (sched : List Bool) :
    ∀ s : CSys, raceInv s = true →
      raceInv (sysRun TKind.auth TKind.auth s sched) = true := by
  induction sched with
  | nil => intro s h; exact h
  | cons b bs ih => intro s h; exact ih _ (raceInv_step s b h)

set_option maxRecDepth 10000 in
theorem raceInv_extract_components :
    ∀ (l : CLock) (hk : Bool) (e : Estc) (p1 p2 : Fin 6),
      raceInv { lock := l, hasK := hk, est := e, pc1 := p1, pc2 := p2 } = true →
      e ≠ Estc.many ∧ (p1 = 5 ∧ p2 = 5 → e = Estc.one) := by
  decide

theorem raceInv_extract (s : CSys) (h : raceInv s = true) :
    s.est ≠ Estc.many ∧ (s.pc1 = 5 ∧ s.pc2 = 5 → s.est = Estc.one) := by
  obtain ⟨l, hk, e, p1, p2⟩ := s
  exact raceInv_extract_components l hk e p1 p2 h

/-- Claim C8, counterexample: after the authenticate thread has taken the
store-wide write lock and entered its device-code network round trip
(program counter 2), the request thread for a distinct identity cannot
even take the read lock: five further scheduling attempts leave the state
unchanged, its counter still at 0; so an establishment round trip for one
identity does block another identity's token access. -/
theorem authenticate_blocks_other_tenants :
    (sysRun TKind.auth TKind.req cInit [true, true]).pc1 = 2 ∧
    (sysRun TKind.auth TKind.req cInit [true, true]).lock = CLock.writer ∧
    sysRun TKind.auth TKind.req cInit ([true, true] ++ List.replicate 5 false)
      = sysRun TKind.auth TKind.req cInit [true, true] ∧
    (sysRun TKind.auth TKind.req cInit [true, true]).pc2 = 0 ∧
    (sysRun TKind.auth TKind.req cInit [true, true, true, true, true, false]).pc2 = 1 := by
  refine ⟨by decide, by decide, by decide, by decide, by decide⟩

/-- Claim C8 (amended): creation for the same identity serializes: in
every interleaving of two authenticate threads for one identity, at most
one establishment runs, and exactly one has run once both complete (a
completing schedule is exhibited); but the establishment executes its
network round trip while holding the store-wide write lock, so it blocks
every other thread's cache access, distinct identities included (see the
counterexample). -/
theorem authenticate_establishes_once :
    (∀ sched : List Bool,
      (sysRun TKind.auth TKind.auth cInit sched).est ≠ Estc.many ∧
      ((sysRun TKind.auth TKind.auth cInit sched).pc1 = 5 ∧
       (sysRun TKind.auth TKind.auth cInit sched).pc2 = 5 →
        (sysRun TKind.auth TKind.auth cInit sched).est = Estc.one)) ∧
    sysRun TKind.auth TKind.auth cInit [true, true, true, true, true, false, false, false]
      = { lock := CLock.free, hasK := true, est := Estc.one, pc1 := 5, pc2 := 5 } := by
  constructor
  · intro sched
    exact raceInv_extract _ (raceInv_run sched cInit (by decide))
  · decide

/-- Witness for authenticate_establishes_once: on the completing schedule
both threads finish and the establish count is exactly one. -/
theorem authenticate_establishes_once_witness :
    (sysRun TKind.auth TKind.auth cInit
      [true, true, true, true, true, false, false, false]).est = Estc.one :=
  (authenticate_establishes_once.1
    [true, true, true, true, true, false, false, false]).2 ⟨by decide, by decide⟩
